import Mathlib

/-!
Verification of the authentication core of the balcaoDeNegocios REST API.

The development shallowly embeds the Express route handlers of
`routes/auth.js` (registration, login, password change, user listing), the
JWT middleware of `middleware/auth.js`, and the collection-listing handlers
of `routes/contatos.js` and `routes/empresas.js`.

Modelling conventions:
  * Request-body fields are `String`s; the empty string stands for a JS
    field that is absent (`undefined`) or empty, matching the truthiness
    checks (`!nome`, `!token`, ...) the handlers perform.
  * The `usuarios` table is a `List Usuario`; parameterized SELECT /
    UPDATE queries become list lookups and maps.  The `contatos` and
    `empresas` tables are not modelled field-by-field: their listing
    handlers simply embed the rows returned by the datastore, so those
    handlers take the row set (`List JValue`) as input.
  * bcrypt and jsonwebtoken are external collaborators; they are modelled
    by executable functions satisfying their documented contracts (a hash
    embeds the cost and the password; a signature is valid exactly when it
    was produced with the same secret; a token is expired when the clock
    has reached its `exp` timestamp, as jsonwebtoken does).
  * Response bodies built as JS object literals become `List (String × JValue)`
    association lists, so that the presence or absence of a body key is a
    provable fact.
-/

namespace BalcaoDeNegocios

/-! ## String constants (messages and body keys from the source) -/

def blank : String := ""
def atSign : String := "@"
def dotStr : String := "."
def dollarStr : String := "$"
def oneSpace : String := " "
def bearerPfx : String := "Bearer "
def bcryptVersion : String := "2b"
def dotChar : Char := '.'
def atChar : Char := '@'
def dollarChar : Char := '$'
def spaceChar : Char := ' '

/-! ## Structural string helpers

Every separator the source splits on (`'@'`, `'.'`, `'$'`, `' '`) is a
single character, so splitting is modelled at the character-list level by
structural recursion (the library's `String.splitOn` and `String.toNat?`
are not used so that every definition evaluates by kernel reduction). -/

/-- Split a character list on a separator character; semantics of
`String.splitOn` / JS `String.prototype.split` for a one-character
separator. -/
def splitOnChar (sep : Char) (cs : List Char) : List (List Char) :=
  cs.foldr (fun c acc =>
    match acc with
    | [] => [[c]]
    | g :: gs => if c == sep then [] :: g :: gs else (c :: g) :: gs) [[]]

/-- String-level wrapper for `splitOnChar`. -/
def splitOnC (sep : Char) (s : String) : List String :=
  (splitOnChar sep s.toList).map (fun g => String.mk g)

/-- Rejoin the pieces `splitOnChar` produced, re-inserting the
separator. -/
def joinWith (sep : Char) : List (List Char) → List Char
  | [] => []
  | [g] => g
  | g :: gs => g ++ sep :: joinWith sep gs

/-- Decimal parse of a character list: `some n` exactly on nonempty
all-digit input (semantics of `String.toNat?`). -/
def charsToNatAux : List Char → Nat → Option Nat
  | [], acc => some acc
  | c :: cs, acc =>
      if c.isDigit then charsToNatAux cs (acc * 10 + (c.toNat - 48))
      else none

def charsToNat? : List Char → Option Nat
  | [] => none
  | cs => charsToNatAux cs 0

/-- Decimal parse of a string. -/
def strToNat? (s : String) : Option Nat :=
  charsToNat? s.toList

/-- `pfx.isPrefixOf s`, the check `String.prototype.startsWith`
performs. -/
def strStartsWith (pfx s : String) : Bool :=
  pfx.toList.isPrefixOf s.toList

def msgCamposObrigatorios : String := "Nome, email e senha são obrigatórios"
def msgSenhasNaoConferem : String := "As senhas não conferem"
def msgSenhaCurta : String := "A senha deve ter no mínimo 6 caracteres"
def msgEmailInvalido : String := "Email inválido"
def msgEmailJaCadastrado : String := "Email já cadastrado"
def msgUsuarioRegistrado : String := "Usuário registrado com sucesso"
def msgEmailSenhaObrigatorios : String := "Email e senha são obrigatórios"
def msgCredenciaisIncorretas : String := "Email ou senha incorretos"
def msgUsuarioInativo : String := "Usuário inativo. Entre em contato com o administrador"
def msgLoginSucesso : String := "Login realizado com sucesso"
def msgTodosCamposObrigatorios : String := "Todos os campos são obrigatórios"
def msgNovasSenhasNaoConferem : String := "As novas senhas não conferem"
def msgNovaSenhaCurta : String := "A nova senha deve ter no mínimo 6 caracteres"
def msgUsuarioNaoEncontrado : String := "Usuário não encontrado"
def msgSenhaAtualIncorreta : String := "Senha atual incorreta"
def msgSenhaAlterada : String := "Senha alterada com sucesso"
def msgTokenNaoFornecido : String := "Token não fornecido"
def msgTokenInvalido : String := "Token inválido"
def msgTokenExpirado : String := "Token expirado"

def ksucesso : String := "sucesso"
def ktotal : String := "total"
def kdados : String := "dados"
def kid : String := "id"
def knome : String := "nome"
def kemail : String := "email"
def kativo : String := "ativo"

/-! ## Data model -/

/-- Row of the `usuarios` table: numeric id, display name, unique email,
bcrypt hash stored in the `senha` column, and the active flag. -/
structure Usuario where
  id : Nat
  nome : String
  email : String
  senha : String
  ativo : Bool
deriving Repr, DecidableEq

/-- The credential store: contents of the `usuarios` table. -/
abbrev Store := List Usuario

/-- JSON-like values, enough to express the response bodies the handlers
build as JS object literals. -/
inductive JValue where
  | jb : Bool → JValue
  | jn : Nat → JValue
  | js : String → JValue
  | jarr : List JValue → JValue
  | jobj : List (String × JValue) → JValue

/-! ## External collaborator: bcrypt (password hasher) -/

/-- Model of `bcrypt.hash(senha, rounds)`: the hash string records the
algorithm version, the cost factor and the password, separated by `$` as
real bcrypt hashes are.  One-way-ness is not modelled; the contract used by
the handlers is only `compare`. -/
def bcryptHash (rounds : Nat) (senha : String) : String :=
  dollarStr ++ bcryptVersion ++ dollarStr ++ toString rounds ++ dollarStr ++ senha

/-- Model of `bcrypt.compare(senha, hash)`: succeeds exactly when `hash`
was produced by `bcryptHash` from `senha` (at any cost factor). -/
def bcryptCompare (senha hash : String) : Bool :=
  match splitOnChar dollarChar hash.toList with
  | e :: v :: r :: rest =>
      e.isEmpty && v == bcryptVersion.toList && (charsToNat? r).isSome &&
        joinWith dollarChar rest == senha.toList
  | _ => false

/-! ## External collaborator: jsonwebtoken (token codec) -/

/-- Decoded token claims attached to the request (`req.usuario`), and the
public-safe user summary returned by login. -/
structure UsuarioResumo where
  id : Nat
  nome : String
  email : String
deriving Repr, DecidableEq

/-- A signed token: the payload fields embedded at login, the expiration
timestamp (seconds), and the signature.  The signature is modelled as the
secret the token was signed with: verification with secret `s` succeeds
exactly on tokens signed with `s`. -/
structure Jwt where
  id : Nat
  nome : String
  email : String
  exp : Nat
  sig : String
deriving Repr, DecidableEq

/-- Model of `jwt.sign(payload, secret, {expiresIn})` at clock time `now`
(seconds): embeds the payload, sets `exp := now + expiresInSecs`, signs
with `secret`. -/
def jwtSign (p : UsuarioResumo) (secret : String) (now : Nat) (expiresInSecs : Nat) : Jwt :=
  ⟨p.id, p.nome, p.email, now + expiresInSecs, secret⟩

inductive JwtError where
  | invalid
  | expired
deriving Repr, DecidableEq

/-- Model of the checks `jwt.verify(token, secret)` performs on a decoded
token at clock time `now`: signature first (JsonWebTokenError on mismatch),
then expiration (TokenExpiredError when `now` has reached `exp`, as
jsonwebtoken rejects when clockTimestamp ≥ exp). -/
def jwtVerify (t : Jwt) (secret : String) (now : Nat) : Except JwtError UsuarioResumo :=
  if t.sig != secret then .error .invalid
  else if t.exp ≤ now then .error .expired
  else .ok ⟨t.id, t.nome, t.email⟩

/-- Wire encoding of a token as a compact string
(`sig.id.nome.email.exp`). -/
def jwtEncode (t : Jwt) : String :=
  t.sig ++ dotStr ++ toString t.id ++ dotStr ++ t.nome ++ dotStr ++ t.email
    ++ dotStr ++ toString t.exp

/-- Parsing of the wire encoding; malformed strings yield `none`
(JsonWebTokenError in jsonwebtoken). -/
def jwtDecode (s : String) : Option Jwt :=
  match splitOnC dotChar s with
  | [sg, i, nm, em, ex] =>
      match strToNat? i, strToNat? ex with
      | some iv, some ev => some ⟨iv, nm, em, ev, sg⟩
      | _, _ => none
  | _ => none

/-- Default token lifetime: `JWT_EXPIRES_IN || '8h'`, i.e. 8 hours in
seconds when the environment variable is unset. -/
def defaultJwtExpiresIn : Nat := 28800

/-! ## routes/auth.js — POST /registro -/

structure RegistroBody where
  nome : String
  email : String
  senha : String
  confirmarSenha : String
deriving Repr, DecidableEq

structure RegResponse where
  status : Nat
  sucesso : Bool
  mensagem : String
  id : Option Nat
deriving Repr, DecidableEq

/-- JS truthiness of an optional string value: `undefined` and `""` are
falsy. -/
def truthy : Option String → Bool
  | some s => s != blank
  | none => false

/-- Translation of the regex `^[^\s@]+@[^\s@]+\.[^\s@]+$` used to validate
emails: exactly one `@`; a nonempty whitespace-free local part; a nonempty
whitespace-free domain containing a dot that is neither its first nor its
last character (the character class `[^\s@]` itself admits dots, so only
one interior dot is required). -/
def emailRegexTest (email : String) : Bool :=
  match splitOnChar atChar email.toList with
  | [loc, dom] =>
      decide (0 < loc.length) && loc.all (fun c => !c.isWhitespace) &&
      decide (0 < dom.length) && dom.all (fun c => !c.isWhitespace) &&
      dom.dropLast.tail.contains dotChar
  | _ => false

/-- Model of the datastore's auto-increment `RETURNING id`. -/
def nextId (st : Store) : Nat :=
  (st.map (fun u => u.id)).foldr Nat.max 0 + 1

/-- Handler of `POST /api/auth/registro` (routes/auth.js lines 50–124):
truthiness check on nome/email/senha, confirmation match, minimum length,
email regex, duplicate lookup, then insert of an active user with a bcrypt
hash at cost 10.  Returns the HTTP response and the resulting store. -/
def registro (b : RegistroBody) (st : Store) : RegResponse × Store :=
  if b.nome == blank || b.email == blank || b.senha == blank then
    (⟨400, false, msgCamposObrigatorios, none⟩, st)
  else if b.senha != b.confirmarSenha then
    (⟨400, false, msgSenhasNaoConferem, none⟩, st)
  else if b.senha.length < 6 then
    (⟨400, false, msgSenhaCurta, none⟩, st)
  else if !emailRegexTest b.email then
    (⟨400, false, msgEmailInvalido, none⟩, st)
  else if st.any (fun u => u.email == b.email) then
    (⟨409, false, msgEmailJaCadastrado, none⟩, st)
  else
    let newId := nextId st
    (⟨201, true, msgUsuarioRegistrado, some newId⟩,
      st ++ [⟨newId, b.nome, b.email, bcryptHash 10 b.senha, true⟩])

/-! ## routes/auth.js — POST /login -/

structure LoginBody where
  email : String
  senha : String
deriving Repr, DecidableEq

structure LoginResponse where
  status : Nat
  sucesso : Bool
  mensagem : String
  token : Option Jwt
  usuario : Option UsuarioResumo
deriving Repr, DecidableEq

/-- Handler of `POST /api/auth/login` (routes/auth.js lines 169–246):
presence check, lookup by exact email, active-flag check, bcrypt compare,
then token minting with `expiresIn` from the configuration (default 8h). -/
def login (b : LoginBody) (st : Store) (secret : String) (expCfg : Option Nat)
    (now : Nat) : LoginResponse :=
  if b.email == blank || b.senha == blank then
    ⟨400, false, msgEmailSenhaObrigatorios, none, none⟩
  else
    match st.find? (fun u => u.email == b.email) with
    | none => ⟨401, false, msgCredenciaisIncorretas, none, none⟩
    | some u =>
      if !u.ativo then
        ⟨403, false, msgUsuarioInativo, none, none⟩
      else if !bcryptCompare b.senha u.senha then
        ⟨401, false, msgCredenciaisIncorretas, none, none⟩
      else
        let tok := jwtSign ⟨u.id, u.nome, u.email⟩ secret now
          (expCfg.getD defaultJwtExpiresIn)
        ⟨200, true, msgLoginSucesso, some tok, some ⟨u.id, u.nome, u.email⟩⟩

/-! ## middleware/auth.js — the `autenticar` middleware -/

structure AuthRequest where
  cookieAccessToken : Option String
  authorizationHeader : Option String
deriving Repr, DecidableEq

/-- Token extraction of middleware/auth.js lines 11–25: the `accessToken`
cookie first (when truthy), the `Authorization` header only when no cookie
token was found; a bearer header contributes `authHeader.split(' ')[1]`. -/
def extractToken (req : AuthRequest) : Option String :=
  let fromCookie : Option String :=
    if truthy req.cookieAccessToken then req.cookieAccessToken else none
  if truthy fromCookie then fromCookie
  else
    match req.authorizationHeader with
    | some h =>
        if strStartsWith bearerPfx h then some ((splitOnC spaceChar h).getD 1 blank)
        else none
    | none => none

inductive AuthOutcome where
  | accept : UsuarioResumo → AuthOutcome
  | reject : Nat → String → AuthOutcome
deriving Repr, DecidableEq

/-- The `autenticar` middleware (middleware/auth.js lines 9–64).  The
credential store is passed as `_store` to record that the middleware could
consult it but never does: the body does not mention it (the JS module does
not even import the database pool). -/
def autenticar (req : AuthRequest) (secret : String) (now : Nat)
    (_store : Store) : AuthOutcome :=
  let tk := extractToken req
  if !truthy tk then .reject 401 msgTokenNaoFornecido
  else
    match jwtDecode (tk.getD blank) with
    | none => .reject 401 msgTokenInvalido
    | some t =>
      match jwtVerify t secret now with
      | .error .invalid => .reject 401 msgTokenInvalido
      | .error .expired => .reject 401 msgTokenExpirado
      | .ok p => .accept p

/-! ## routes/auth.js — PUT /alterar-senha -/

structure AlterarBody where
  senhaAtual : String
  novaSenha : String
  confirmarNovaSenha : String
deriving Repr, DecidableEq

structure SimpleResponse where
  status : Nat
  sucesso : Bool
  mensagem : String
deriving Repr, DecidableEq

/-- Handler of `PUT /api/auth/alterar-senha` (routes/auth.js lines
307–378), for the authenticated caller `uid` (`req.usuario.id`): all three
fields truthy, new equals confirmation, minimum length, lookup of the
stored hash by id, bcrypt re-verification of the current password, then an
UPDATE of the `senha` column for that id. -/
def alterarSenha (b : AlterarBody) (uid : Nat) (st : Store) :
    SimpleResponse × Store :=
  if b.senhaAtual == blank || b.novaSenha == blank
      || b.confirmarNovaSenha == blank then
    (⟨400, false, msgTodosCamposObrigatorios⟩, st)
  else if b.novaSenha != b.confirmarNovaSenha then
    (⟨400, false, msgNovasSenhasNaoConferem⟩, st)
  else if b.novaSenha.length < 6 then
    (⟨400, false, msgNovaSenhaCurta⟩, st)
  else
    match st.find? (fun u => u.id == uid) with
    | none => (⟨404, false, msgUsuarioNaoEncontrado⟩, st)
    | some u =>
      if !bcryptCompare b.senhaAtual u.senha then
        (⟨401, false, msgSenhaAtualIncorreta⟩, st)
      else
        (⟨200, true, msgSenhaAlterada⟩,
          st.map (fun v =>
            if v.id == uid then { v with senha := bcryptHash 10 b.novaSenha }
            else v))

/-! ## Collection listings (GET /usuarios, GET /contatos, GET /empresas) -/

structure ListResponse where
  status : Nat
  body : List (String × JValue)

/-- JSON row a user record is rendered to by
`SELECT id, nome, email, ativo`. -/
def usuarioJson (u : Usuario) : JValue :=
  .jobj [(kid, .jn u.id), (knome, .js u.nome), (kemail, .js u.email),
    (kativo, .jb u.ativo)]

/-- Handler of `GET /api/auth/usuarios` (routes/auth.js lines 421–444):
`res.json({sucesso, total: rows.length, dados: rows})`.  The ORDER BY of
the SELECT is the datastore's concern and does not affect the body shape. -/
def listUsuarios (st : Store) : ListResponse :=
  ⟨200, [(ksucesso, .jb true), (ktotal, .jn st.length),
    (kdados, .jarr (st.map usuarioJson))]⟩

/-- Handler of `GET /api/contatos` (routes/contatos.js lines 226–263),
taking the rows the filtered query returned:
`res.json({sucesso, total: rows.length, dados: rows})`. -/
def listContatos (rows : List JValue) : ListResponse :=
  ⟨200, [(ksucesso, .jb true), (ktotal, .jn rows.length),
    (kdados, .jarr rows)]⟩

/-- Handler of `GET /api/empresas` (routes/empresas.js lines 808–833),
taking the rows the query returned: `res.json({sucesso, dados: rows})` —
no count field is emitted. -/
def listEmpresas (rows : List JValue) : ListResponse :=
  ⟨200, [(ksucesso, .jb true), (kdados, .jarr rows)]⟩

/-- Value of a body key, when present. -/
def bodyLookup (r : ListResponse) (k : String) : Option JValue :=
  (r.body.find? (fun p => p.1 == k)).map (fun p => p.2)

/-- Keys of a response body. -/
def bodyKeys (r : ListResponse) : List String :=
  r.body.map (fun p => p.1)

/-! ## Concrete fixtures used by witnesses and counterexamples -/

def nomeEx : String := "João Silva"
def emailEx : String := "joao@x.com"
def emailEx2 : String := "ines@x.com"
def emailMissingEx : String := "ghost@x.com"
def pwEx : String := "abcdef"
def pwNewEx : String := "novoseg"
def pwWrongEx : String := "zzzzzz"
def secEx : String := "sec"
def hashEx : String := bcryptHash 10 pwEx
def userEx : Usuario := ⟨1, nomeEx, emailEx, hashEx, true⟩
def userInativoEx : Usuario := ⟨2, nomeEx, emailEx2, hashEx, false⟩
def stEx : Store := [userEx]
def stInativoEx : Store := [userInativoEx]

/-! ## Theorems -/

/-- C1: Registration validates fail-fast in source order — missing fields,
then password/confirmation mismatch, then minimum length, then email
shape, then the duplicate lookup (the only store-dependent check).  Each
conjunct pins the response of one outcome; for the four local checks the
response is additionally independent of the store and the store is left
unchanged, so no later check's error can surface once an earlier check has
failed and the store is consulted only after all local checks pass. -/
theorem registro_fail_fast (b : RegistroBody) (st st' : Store) :
    ((b.nome = blank ∨ b.email = blank ∨ b.senha = blank) →
      (registro b st).1 = ⟨400, false, msgCamposObrigatorios, none⟩ ∧
      (registro b st).2 = st ∧ (registro b st).1 = (registro b st').1) ∧
    (b.nome ≠ blank → b.email ≠ blank → b.senha ≠ blank →
      b.senha ≠ b.confirmarSenha →
      (registro b st).1 = ⟨400, false, msgSenhasNaoConferem, none⟩ ∧
      (registro b st).2 = st ∧ (registro b st).1 = (registro b st').1) ∧
    (b.nome ≠ blank → b.email ≠ blank → b.senha ≠ blank →
      b.senha = b.confirmarSenha → b.senha.length < 6 →
      (registro b st).1 = ⟨400, false, msgSenhaCurta, none⟩ ∧
      (registro b st).2 = st ∧ (registro b st).1 = (registro b st').1) ∧
    (b.nome ≠ blank → b.email ≠ blank → b.senha ≠ blank →
      b.senha = b.confirmarSenha → 6 ≤ b.senha.length →
      emailRegexTest b.email = false →
      (registro b st).1 = ⟨400, false, msgEmailInvalido, none⟩ ∧
      (registro b st).2 = st ∧ (registro b st).1 = (registro b st').1) ∧
    (b.nome ≠ blank → b.email ≠ blank → b.senha ≠ blank →
      b.senha = b.confirmarSenha → 6 ≤ b.senha.length →
      emailRegexTest b.email = true →
      st.any (fun u => u.email == b.email) = true →
      (registro b st).1 = ⟨409, false, msgEmailJaCadastrado, none⟩ ∧
      (registro b st).2 = st) ∧
    (b.nome ≠ blank → b.email ≠ blank → b.senha ≠ blank →
      b.senha = b.confirmarSenha → 6 ≤ b.senha.length →
      emailRegexTest b.email = true →
      st.any (fun u => u.email == b.email) = false →
      (registro b st).1 = ⟨201, true, msgUsuarioRegistrado, some (nextId st)⟩ ∧
      (registro b st).2
        = st ++ [⟨nextId st, b.nome, b.email, bcryptHash 10 b.senha, true⟩]) := by
  refine ⟨?_, ?_, ?_, ?_, ?_, ?_⟩
  · intro h
    rcases h with h | h | h <;> simp [registro, h]
  · intro h1 h2 h3 h4
    simp [registro, h1, h2, h3, h4]
  · intro h1 h2 h3 h4 h5
    have h3c : b.confirmarSenha ≠ blank := by rw [← h4]; exact h3
    have h5c : b.confirmarSenha.length < 6 := by rw [← h4]; exact h5
    simp [registro, h1, h2, h3, h4, h3c, h5c]
  · intro h1 h2 h3 h4 h5 h6
    have h3c : b.confirmarSenha ≠ blank := by rw [← h4]; exact h3
    have h5c : ¬ b.confirmarSenha.length < 6 := by rw [← h4]; omega
    simp [registro, h1, h2, h3, h4, h3c, h5c, h6]
  · intro h1 h2 h3 h4 h5 h6 h7
    have h3c : b.confirmarSenha ≠ blank := by rw [← h4]; exact h3
    have h5c : ¬ b.confirmarSenha.length < 6 := by rw [← h4]; omega
    simp [registro, h1, h2, h3, h4, h3c, h5c, h6, h7]
  · intro h1 h2 h3 h4 h5 h6 h7
    have h3c : b.confirmarSenha ≠ blank := by rw [← h4]; exact h3
    have h5c : ¬ b.confirmarSenha.length < 6 := by rw [← h4]; omega
    simp [registro, h1, h2, h3, h4, h3c, h5c, h6, h7]

/-- C1 witness: a fully valid registration against the empty store passes
every check and inserts the new active user. -/
theorem registro_fail_fast_witness :
    (registro ⟨nomeEx, emailEx, pwEx, pwEx⟩ []).1
      = ⟨201, true, msgUsuarioRegistrado, some (nextId [])⟩ ∧
    (registro ⟨nomeEx, emailEx, pwEx, pwEx⟩ []).2
      = [] ++ [⟨nextId [], nomeEx, emailEx, bcryptHash 10 pwEx, true⟩] :=
  (registro_fail_fast ⟨nomeEx, emailEx, pwEx, pwEx⟩ [] []).2.2.2.2.2
    (by decide) (by decide) (by decide) rfl (by decide) (by decide) (by decide)

/-- C2: For well-formed login bodies, the nonexistent-email failure and the
wrong-password failure on an active account both answer 401, and their
error messages coincide — the two paths are indistinguishable in status
code and message. -/
theorem login_enumeration_indistinguishable
    (b1 b2 : LoginBody) (st1 st2 : Store) (u : Usuario)
    (secret : String) (expCfg : Option Nat) (now : Nat)
    (h1 : b1.email ≠ blank) (h2 : b1.senha ≠ blank)
    (h3 : b2.email ≠ blank) (h4 : b2.senha ≠ blank)
    (hnf : st1.find? (fun v => v.email == b1.email) = none)
    (hf : st2.find? (fun v => v.email == b2.email) = some u)
    (hat : u.ativo = true)
    (hpw : bcryptCompare b2.senha u.senha = false) :
    (login b1 st1 secret expCfg now).status = 401 ∧
    (login b2 st2 secret expCfg now).status = 401 ∧
    (login b1 st1 secret expCfg now).mensagem
      = (login b2 st2 secret expCfg now).mensagem := by
  simp [login, h1, h2, h3, h4, hnf, hf, hat, hpw]

/-- C2 witness: against the concrete one-user store, a login for an
unregistered email and a login with the wrong password for the registered
active user produce the same 401 and the same message. -/
theorem login_enumeration_indistinguishable_witness :
    (login ⟨emailMissingEx, pwEx⟩ stEx secEx none 0).status = 401 ∧
    (login ⟨emailEx, pwWrongEx⟩ stEx secEx none 0).status = 401 ∧
    (login ⟨emailMissingEx, pwEx⟩ stEx secEx none 0).mensagem
      = (login ⟨emailEx, pwWrongEx⟩ stEx secEx none 0).mensagem :=
  login_enumeration_indistinguishable ⟨emailMissingEx, pwEx⟩ ⟨emailEx, pwWrongEx⟩
    stEx stEx userEx secEx none 0 (by decide) (by decide) (by decide) (by decide)
    (by decide) (by decide) (by decide) (by decide)

/-- C3: A login that names a deactivated account fails with 403 and the
distinct account-disabled message, never the generic 401 — for every
supplied password, including the correct one, because the active flag is
rejected before `bcrypt.compare` runs. -/
theorem login_inactive_distinct_403 (b : LoginBody) (st : Store) (u : Usuario)
    (secret : String) (expCfg : Option Nat) (now : Nat)
    (h1 : b.email ≠ blank) (h2 : b.senha ≠ blank)
    (hf : st.find? (fun v => v.email == b.email) = some u)
    (hin : u.ativo = false) :
    login b st secret expCfg now = ⟨403, false, msgUsuarioInativo, none, none⟩ ∧
    (login b st secret expCfg now).status ≠ 401 := by
  have h : login b st secret expCfg now
      = ⟨403, false, msgUsuarioInativo, none, none⟩ := by
    simp [login, h1, h2, hf, hin]
  exact ⟨h, by rw [h]; decide⟩

/-- C3 witness: the deactivated user with the CORRECT password still gets
the 403 account-disabled answer. -/
theorem login_inactive_distinct_403_witness :
    bcryptCompare pwEx userInativoEx.senha = true ∧
    login ⟨emailEx2, pwEx⟩ stInativoEx secEx none 0
      = ⟨403, false, msgUsuarioInativo, none, none⟩ :=
  ⟨by decide,
    (login_inactive_distinct_403 ⟨emailEx2, pwEx⟩ stInativoEx userInativoEx
      secEx none 0 (by decide) (by decide) (by decide) (by decide)).1⟩

/-- C4: The middleware takes the token from the `accessToken` cookie when
one is present, so that with both channels populated the cookie token is
the one verified (the middleware behaves as if only the cookie were
present), and the Authorization header is consulted only when no cookie
token exists, contributing its Bearer payload. -/
theorem autenticar_cookie_precedence (cookie header : Option String)
    (c secret : String) (now : Nat) (st : Store)
    (hc : cookie = some c) (hne : c ≠ blank) :
    extractToken ⟨cookie, header⟩ = some c ∧
    autenticar ⟨cookie, header⟩ secret now st
      = autenticar ⟨some c, none⟩ secret now st ∧
    (∀ hdr : String, extractToken ⟨none, some hdr⟩ =
      (if strStartsWith bearerPfx hdr
       then some ((splitOnC spaceChar hdr).getD 1 blank) else none)) := by
  subst hc
  have hx : extractToken ⟨some c, header⟩ = some c := by
    simp [extractToken, truthy, hne]
  have hy : extractToken ⟨some c, none⟩ = some c := by
    simp [extractToken, truthy, hne]
  refine ⟨hx, ?_, ?_⟩
  · simp only [autenticar, hx, hy]
  · intro hdr
    simp [extractToken, truthy]

/-- C4 witness: with a cookie token and a different header token both
present, extraction picks the cookie token and authentication matches the
cookie-only outcome; header extraction alone yields the Bearer payload. -/
theorem autenticar_cookie_precedence_witness :
    extractToken ⟨some (jwtEncode (jwtSign ⟨1, nomeEx, emailEx⟩ secEx 0 28800)),
        some (String.append bearerPfx pwWrongEx)⟩
      = some (jwtEncode (jwtSign ⟨1, nomeEx, emailEx⟩ secEx 0 28800)) ∧
    autenticar ⟨some (jwtEncode (jwtSign ⟨1, nomeEx, emailEx⟩ secEx 0 28800)),
        some (String.append bearerPfx pwWrongEx)⟩ secEx 60 stEx
      = autenticar ⟨some (jwtEncode (jwtSign ⟨1, nomeEx, emailEx⟩ secEx 0 28800)),
          none⟩ secEx 60 stEx ∧
    (∀ hdr : String, extractToken ⟨none, some hdr⟩ =
      (if strStartsWith bearerPfx hdr
       then some ((splitOnC spaceChar hdr).getD 1 blank) else none)) :=
  autenticar_cookie_precedence
    (some (jwtEncode (jwtSign ⟨1, nomeEx, emailEx⟩ secEx 0 28800)))
    (some (String.append bearerPfx pwWrongEx))
    (jwtEncode (jwtSign ⟨1, nomeEx, emailEx⟩ secEx 0 28800)) secEx 60 stEx
    rfl (by decide)

/-- C5: Verification is stateless: the middleware's outcome is identical in
any two credential-store states (a password change or deactivation after
issuance cannot affect it), and any token that decodes, carries the server
secret's signature and is not yet expired is accepted with its embedded
claims. -/
theorem autenticar_stateless (req : AuthRequest) (s secret : String) (t : Jwt)
    (now : Nat) (st1 st2 : Store)
    (hs : s ≠ blank) (hdec : jwtDecode s = some t)
    (hsig : t.sig = secret) (hexp : now < t.exp) :
    autenticar req secret now st1 = autenticar req secret now st2 ∧
    autenticar ⟨some s, none⟩ secret now st1
      = .accept ⟨t.id, t.nome, t.email⟩ := by
  constructor
  · rfl
  · have hnle : ¬ t.exp ≤ now := by omega
    have hx : extractToken ⟨some s, none⟩ = some s := by
      simp [extractToken, truthy, hs]
    simp [autenticar, hx, truthy, hs, hdec, jwtVerify, hsig, hnle]

/-- C5 witness: a concrete signed, unexpired token is accepted, and the
outcome agrees between the one-user store and the empty store. -/
theorem autenticar_stateless_witness :
    autenticar ⟨some (jwtEncode ⟨7, "Ana", "anaxcom", 28900, secEx⟩), none⟩
        secEx 100 stEx
      = autenticar ⟨some (jwtEncode ⟨7, "Ana", "anaxcom", 28900, secEx⟩), none⟩
        secEx 100 [] ∧
    autenticar ⟨some (jwtEncode ⟨7, "Ana", "anaxcom", 28900, secEx⟩), none⟩
        secEx 100 stEx
      = .accept ⟨7, "Ana", "anaxcom"⟩ :=
  autenticar_stateless ⟨some (jwtEncode ⟨7, "Ana", "anaxcom", 28900, secEx⟩), none⟩
    (jwtEncode ⟨7, "Ana", "anaxcom", 28900, secEx⟩) secEx
    ⟨7, "Ana", "anaxcom", 28900, secEx⟩ 100 stEx []
    (by decide) (by decide) rfl (by decide)

/-- C6: A successful login under the default configuration mints a token
signed with the server secret whose expiration is 8 hours (28800 s) after
issuance; that token passes verification one minute after issuance and is
rejected as expired nine hours after issuance. -/
theorem login_token_default_expiry (b : LoginBody) (st : Store) (u : Usuario)
    (secret : String) (T : Nat)
    (h1 : b.email ≠ blank) (h2 : b.senha ≠ blank)
    (hf : st.find? (fun v => v.email == b.email) = some u)
    (hat : u.ativo = true)
    (hpw : bcryptCompare b.senha u.senha = true) :
    (login b st secret none T).token
      = some (jwtSign ⟨u.id, u.nome, u.email⟩ secret T defaultJwtExpiresIn) ∧
    ∀ t, (login b st secret none T).token = some t →
      t.sig = secret ∧ t.exp = T + 28800 ∧
      jwtVerify t secret (T + 60) = .ok ⟨t.id, t.nome, t.email⟩ ∧
      jwtVerify t secret (T + 32400) = .error .expired := by
  have htok : (login b st secret none T).token
      = some (jwtSign ⟨u.id, u.nome, u.email⟩ secret T defaultJwtExpiresIn) := by
    simp [login, h1, h2, hf, hat, hpw]
  refine ⟨htok, ?_⟩
  intro t ht
  rw [htok] at ht
  injection ht with ht
  subst ht
  refine ⟨rfl, rfl, ?_, ?_⟩
  · have hnle : ¬ (T + defaultJwtExpiresIn ≤ T + 60) := by
      simp [defaultJwtExpiresIn]
    simp [jwtVerify, jwtSign, hnle]
  · have hle : T + defaultJwtExpiresIn ≤ T + 32400 := by
      simp [defaultJwtExpiresIn]
    simp [jwtVerify, jwtSign, hle]

/-- C6 witness: the concrete login at time 0 yields the token expiring at
28800, accepted at 60 and expired at 32400. -/
theorem login_token_default_expiry_witness :
    (login ⟨emailEx, pwEx⟩ stEx secEx none 0).token
      = some (jwtSign ⟨1, nomeEx, emailEx⟩ secEx 0 defaultJwtExpiresIn) ∧
    jwtVerify (jwtSign ⟨1, nomeEx, emailEx⟩ secEx 0 defaultJwtExpiresIn)
        secEx 60 = .ok ⟨1, nomeEx, emailEx⟩ ∧
    jwtVerify (jwtSign ⟨1, nomeEx, emailEx⟩ secEx 0 defaultJwtExpiresIn)
        secEx 32400 = .error .expired := by
  have h := login_token_default_expiry ⟨emailEx, pwEx⟩ stEx userEx secEx 0
    (by decide) (by decide) (by decide) (by decide) (by decide)
  exact ⟨h.1, (h.2 _ h.1).2.2.1, (h.2 _ h.1).2.2.2⟩

/-- Finding in a mapped list, when the map does not disturb the predicate:
the first match of `l.map f` is `f` of the first match of `l`. -/
theorem find?_map_of_pred_eq {α : Type} (p : α → Bool) (f : α → α)
    (hpf : ∀ x, p (f x) = p x) :
    ∀ (l : List α) (u : α), l.find? p = some u →
      (l.map f).find? p = some (f u) := by
  intro l
  induction l with
  | nil => intro u h; simp at h
  | cons a tl ih =>
    intro u h
    by_cases hpa : p a = true
    · rw [List.find?_cons_of_pos _ hpa] at h
      injection h with h
      subst h
      rw [List.map_cons, List.find?_cons_of_pos]
      rw [hpf]
      exact hpa
    · have hpa' : ¬ p a := by simpa using hpa
      rw [List.find?_cons_of_neg _ hpa'] at h
      rw [List.map_cons, List.find?_cons_of_neg, ih u h]
      rw [hpf]
      exact hpa'

/-- C7: For an authenticated caller whose record is in the store, password
change requires the three fields, the confirmation match and the minimum
length, re-verifies the current password against the stored hash (401 on
mismatch, store untouched), and only then overwrites the stored hash:
success answers 200 and the caller's record now carries the bcrypt hash of
the new password. -/
theorem alterar_senha_flow (b : AlterarBody) (uid : Nat) (st : Store)
    (u : Usuario) (hf : st.find? (fun v => v.id == uid) = some u) :
    ((b.senhaAtual = blank ∨ b.novaSenha = blank ∨ b.confirmarNovaSenha = blank) →
      (alterarSenha b uid st).1 = ⟨400, false, msgTodosCamposObrigatorios⟩ ∧
      (alterarSenha b uid st).2 = st) ∧
    (b.senhaAtual ≠ blank → b.novaSenha ≠ blank → b.confirmarNovaSenha ≠ blank →
      b.novaSenha ≠ b.confirmarNovaSenha →
      (alterarSenha b uid st).1 = ⟨400, false, msgNovasSenhasNaoConferem⟩ ∧
      (alterarSenha b uid st).2 = st) ∧
    (b.senhaAtual ≠ blank → b.novaSenha ≠ blank → b.confirmarNovaSenha ≠ blank →
      b.novaSenha = b.confirmarNovaSenha → b.novaSenha.length < 6 →
      (alterarSenha b uid st).1 = ⟨400, false, msgNovaSenhaCurta⟩ ∧
      (alterarSenha b uid st).2 = st) ∧
    (b.senhaAtual ≠ blank → b.novaSenha ≠ blank → b.confirmarNovaSenha ≠ blank →
      b.novaSenha = b.confirmarNovaSenha → 6 ≤ b.novaSenha.length →
      bcryptCompare b.senhaAtual u.senha = false →
      (alterarSenha b uid st).1 = ⟨401, false, msgSenhaAtualIncorreta⟩ ∧
      (alterarSenha b uid st).2 = st) ∧
    (b.senhaAtual ≠ blank → b.novaSenha ≠ blank → b.confirmarNovaSenha ≠ blank →
      b.novaSenha = b.confirmarNovaSenha → 6 ≤ b.novaSenha.length →
      bcryptCompare b.senhaAtual u.senha = true →
      (alterarSenha b uid st).1 = ⟨200, true, msgSenhaAlterada⟩ ∧
      (alterarSenha b uid st).2.find? (fun v => v.id == uid)
        = some { u with senha := bcryptHash 10 b.novaSenha }) := by
  refine ⟨?_, ?_, ?_, ?_, ?_⟩
  · intro h
    rcases h with h | h | h <;> simp [alterarSenha, h]
  · intro h1 h2 h3 h4
    have hbne : (b.novaSenha != b.confirmarNovaSenha) = true := by simp [h4]
    simp [alterarSenha, h1, h2, h3, hbne]
  · intro h1 h2 h3 h4 h5
    have hbne : (b.novaSenha != b.confirmarNovaSenha) = false := by simp [h4]
    simp [alterarSenha, h1, h2, h3, hbne, h5]
  · intro h1 h2 h3 h4 h5 hpw
    have hbne : (b.novaSenha != b.confirmarNovaSenha) = false := by simp [h4]
    have h5' : ¬ b.novaSenha.length < 6 := by omega
    simp [alterarSenha, h1, h2, h3, hbne, h5', hf, hpw]
  · intro h1 h2 h3 h4 h5 hpw
    have hbne : (b.novaSenha != b.confirmarNovaSenha) = false := by simp [h4]
    have h5' : ¬ b.novaSenha.length < 6 := by omega
    have hu : (u.id == uid) = true := by
      have h := List.find?_some hf
      simpa using h
    have hmap := find?_map_of_pred_eq (fun v => v.id == uid)
      (fun v => if v.id == uid
        then { v with senha := bcryptHash 10 b.novaSenha } else v)
      (fun x => by by_cases hx : (x.id == uid) = true <;> simp [hx]) st u hf
    constructor
    · simp [alterarSenha, h1, h2, h3, hbne, h5', hf, hpw]
    · have hsnd : (alterarSenha b uid st).2
          = st.map (fun v => if v.id == uid
            then { v with senha := bcryptHash 10 b.novaSenha } else v) := by
        simp [alterarSenha, h1, h2, h3, hbne, h5', hf, hpw]
      rw [hsnd, hmap]
      simp [hu]

/-- C7 witness: the registered user changes the password with the correct
current password; the response is 200 and the stored hash is replaced. -/
theorem alterar_senha_flow_witness :
    (alterarSenha ⟨pwEx, pwNewEx, pwNewEx⟩ 1 stEx).1
      = ⟨200, true, msgSenhaAlterada⟩ ∧
    (alterarSenha ⟨pwEx, pwNewEx, pwNewEx⟩ 1 stEx).2.find? (fun v => v.id == 1)
      = some { userEx with senha := bcryptHash 10 pwNewEx } :=
  (alterar_senha_flow ⟨pwEx, pwNewEx, pwNewEx⟩ 1 stEx userEx
    (by decide)).2.2.2.2 (by decide) (by decide) (by decide) rfl (by decide)
    (by decide)

/-- C10: When the local field checks pass but the supplied current password
does not match the stored hash, the password change answers 401 and the
store — in particular the caller's stored hash — is returned unchanged:
the update never runs on this path. -/
theorem alterar_senha_wrong_current_atomic (b : AlterarBody) (uid : Nat)
    (st : Store) (u : Usuario)
    (h1 : b.senhaAtual ≠ blank) (h2 : b.novaSenha ≠ blank)
    (h3 : b.confirmarNovaSenha ≠ blank)
    (h4 : b.novaSenha = b.confirmarNovaSenha) (h5 : 6 ≤ b.novaSenha.length)
    (hf : st.find? (fun v => v.id == uid) = some u)
    (hpw : bcryptCompare b.senhaAtual u.senha = false) :
    (alterarSenha b uid st).1 = ⟨401, false, msgSenhaAtualIncorreta⟩ ∧
    (alterarSenha b uid st).2 = st := by
  have hbne : (b.novaSenha != b.confirmarNovaSenha) = false := by simp [h4]
  have h5' : ¬ b.novaSenha.length < 6 := by omega
  constructor <;> simp [alterarSenha, h1, h2, h3, hbne, h5', hf, hpw]

/-- C10 witness: a wrong current password against the concrete store gives
401 and leaves the store exactly as it was. -/
theorem alterar_senha_wrong_current_atomic_witness :
    (alterarSenha ⟨pwWrongEx, pwNewEx, pwNewEx⟩ 1 stEx).1
      = ⟨401, false, msgSenhaAtualIncorreta⟩ ∧
    (alterarSenha ⟨pwWrongEx, pwNewEx, pwNewEx⟩ 1 stEx).2 = stEx :=
  alterar_senha_wrong_current_atomic ⟨pwWrongEx, pwNewEx, pwNewEx⟩ 1 stEx userEx
    (by decide) (by decide) (by decide) rfl (by decide) (by decide) (by decide)

/-- C8 counterexample: at a concrete store and concrete requests, the
email-not-found failure and the wrong-password failure answer the SAME
status code 401 (with the same message), so the claim that the two paths
return different response codes is false. -/
theorem login_status_difference_counterexample :
    ¬ ((login ⟨emailMissingEx, pwNewEx⟩ stEx secEx none 5).status
        ≠ (login ⟨emailEx, pwWrongEx⟩ stEx secEx none 5).status) ∧
    (login ⟨emailMissingEx, pwNewEx⟩ stEx secEx none 5).status = 401 ∧
    (login ⟨emailEx, pwWrongEx⟩ stEx secEx none 5).status = 401 ∧
    (login ⟨emailMissingEx, pwNewEx⟩ stEx secEx none 5).mensagem
      = (login ⟨emailEx, pwWrongEx⟩ stEx secEx none 5).mensagem := by
  decide

/-- C8 (amended): the email-not-found path and the wrong-password path
carry an identical generic error message and ALSO the same HTTP status,
401 — the response codes do not differ between the two paths. -/
theorem login_paths_identical_status_and_message
    (b1 b2 : LoginBody) (st1 st2 : Store) (u : Usuario)
    (secret : String) (expCfg : Option Nat) (now : Nat)
    (h1 : b1.email ≠ blank) (h2 : b1.senha ≠ blank)
    (h3 : b2.email ≠ blank) (h4 : b2.senha ≠ blank)
    (hnf : st1.find? (fun v => v.email == b1.email) = none)
    (hf : st2.find? (fun v => v.email == b2.email) = some u)
    (hat : u.ativo = true)
    (hpw : bcryptCompare b2.senha u.senha = false) :
    (login b1 st1 secret expCfg now).status
      = (login b2 st2 secret expCfg now).status ∧
    (login b1 st1 secret expCfg now).mensagem
      = (login b2 st2 secret expCfg now).mensagem ∧
    (login b1 st1 secret expCfg now).status = 401 ∧
    (login b1 st1 secret expCfg now).mensagem = msgCredenciaisIncorretas := by
  refine ⟨?_, ?_, ?_, ?_⟩ <;> simp [login, h1, h2, h3, h4, hnf, hf, hat, hpw]

/-- C8 amended-claim witness: a concrete instantiation of the two failure
paths, sharing status 401 and the generic message. -/
theorem login_paths_identical_status_and_message_witness :
    (login ⟨emailEx2, pwEx⟩ stEx secEx none 7).status
      = (login ⟨emailEx, pwNewEx⟩ stEx secEx none 7).status ∧
    (login ⟨emailEx2, pwEx⟩ stEx secEx none 7).mensagem
      = (login ⟨emailEx, pwNewEx⟩ stEx secEx none 7).mensagem ∧
    (login ⟨emailEx2, pwEx⟩ stEx secEx none 7).status = 401 ∧
    (login ⟨emailEx2, pwEx⟩ stEx secEx none 7).mensagem
      = msgCredenciaisIncorretas :=
  login_paths_identical_status_and_message ⟨emailEx2, pwEx⟩ ⟨emailEx, pwNewEx⟩
    stEx stEx userEx secEx none 7 (by decide) (by decide) (by decide) (by decide)
    (by decide) (by decide) (by decide) (by decide)

def rowsEmptyEx : List JValue := []

/-- C9 counterexample: the company listing's successful body carries only
the success flag and the data array — no count field of any name — so the
claim that every collection listing includes a count is false at this
concrete response. -/
theorem empresas_listing_no_count_counterexample :
    bodyKeys (listEmpresas rowsEmptyEx) = [ksucesso, kdados] ∧
    (bodyKeys (listEmpresas rowsEmptyEx)).contains ktotal = false ∧
    (bodyLookup (listEmpresas rowsEmptyEx) ktotal).isSome = false := by
  decide

/-- C9 (amended): the user listing and the contact listing include the
count field `total`, valued at the number of returned rows, alongside the
`dados` array; the company listing returns `dados` without any count
field. -/
theorem listing_count_fields (st : Store) (rowsC rowsE : List JValue) :
    bodyLookup (listUsuarios st) ktotal = some (.jn st.length) ∧
    (bodyKeys (listUsuarios st)).contains kdados = true ∧
    bodyLookup (listContatos rowsC) ktotal = some (.jn rowsC.length) ∧
    (bodyKeys (listContatos rowsC)).contains kdados = true ∧
    bodyLookup (listEmpresas rowsE) ktotal = none ∧
    (bodyKeys (listEmpresas rowsE)).contains kdados = true :=
  ⟨rfl, rfl, rfl, rfl, rfl, rfl⟩

end BalcaoDeNegocios
